import Mathlib

/-!
Verification of the Smart Traffic Management System backend
(`app.py`, `utils.py`, `config.py`).

The embedding models the Python dictionaries of the source as ordered
association lists (`List (String × _)`), which matches CPython's
insertion-ordered dicts: the pipeline and the simulate endpoint always
build the counts dict in the key order laneA, laneB, laneC, laneD.
Machine integers of the source are `Nat`/`Int`; Python `//` on ints is
`Int.fdiv`; a Python function that can raise is embedded as an
`Option`/`Except` returning function, `none`/`.error` being the raise.
-/

/-- One lane's published record, the Python dict
`{'count': _, 'signal': _, 'time': _}` (with the optional `'priority'`
key that only `utils.SignalController.calculate_adaptive_timing` adds). -/
structure LaneSignal where
  count : Nat
  signal : String
  time : Nat
  priority : Option String := none
deriving Repr, DecidableEq

/-- `max(vehicle_counts.values())` of `app.py` line 54: the maximum of the
values of the dict; on an empty dict Python `max` raises `ValueError`,
embedded as `none`. -/
def maxVal : List (String × Nat) → Option Nat
  | [] => none
  | e :: rest => some (rest.foldl (fun m x => Nat.max m x.2) e.2)

/-- `max(vehicle_counts, key=vehicle_counts.get)` of `app.py` line 55 and
`utils.py` line 193: the first key (in dict iteration order) whose value
is maximal — Python's `max` keeps the current best and replaces it only
on a strictly greater key value. Empty dict raises, embedded as `none`. -/
def argmaxKey : List (String × Nat) → Option String
  | [] => none
  | e :: rest => some (rest.foldl (fun best x => if x.2 > best.2 then x else best) e).1

/-- `calculate_signal_timing` of `app.py` lines 52-87. -/
def calculate_signal_timing (vehicle_counts : List (String × Nat)) :
    Option (List (String × LaneSignal)) :=
  match maxVal vehicle_counts, argmaxKey vehicle_counts with
  | some max_count, some max_lane =>
    let green_time : Nat :=
      if max_count > 15 then 30
      else if max_count > 10 then 25
      else if max_count > 5 then 20
      else 15
    some (vehicle_counts.map fun e =>
      (e.1, if e.1 = max_lane
            then { count := e.2, signal := "Green", time := green_time }
            else { count := e.2, signal := "Red", time := 15 }))
  | _, _ => none

/-- `SignalController.calculate_adaptive_timing` of `utils.py` lines
181-224: same decision as `calculate_signal_timing`, computed via
`max_lane` first and `vehicle_counts[max_lane]`, and additionally
tagging a `'priority'` key. -/
def calculate_adaptive_timing (vehicle_counts : List (String × Nat)) :
    Option (List (String × LaneSignal)) :=
  match argmaxKey vehicle_counts with
  | none => none
  | some max_lane =>
    match vehicle_counts.lookup max_lane with
    | none => none
    | some max_count =>
      let green_time : Nat :=
        if max_count > 15 then 30
        else if max_count > 10 then 25
        else if max_count > 5 then 20
        else 15
      some (vehicle_counts.map fun e =>
        (e.1, if e.1 = max_lane
              then { count := e.2, signal := "Green", time := green_time,
                     priority := some "High" }
              else { count := e.2, signal := "Red", time := 15,
                     priority := some "Low" }))

/-- `SignalController.calculate_cycle_time` of `utils.py` lines 226-241:
sum of the `'time'` entries of all lanes. -/
def calculate_cycle_time (signals : List (String × LaneSignal)) : Nat :=
  signals.foldl (fun total e => total + e.2.time) 0

/-- The four-lane counts dict in the key order every caller in the source
builds it (`app.py` lines 105, 192-197, 381). -/
def fourLanes (a b c d : Nat) : List (String × Nat) :=
  [("laneA", a), ("laneB", b), ("laneC", c), ("laneD", d)]

/-- `LaneDetector.determine_lane` of `utils.py` lines 134-156 (identical
logic in `Config.get_lane_from_coordinates`, `config.py` lines 97-109):
Python `//` is floor division (`Int.fdiv`), and `// 0` raises
`ZeroDivisionError`, embedded as `none`. -/
def determine_lane (x_coord : Int) (frame_width : Int) (num_lanes : Int) :
    Option String :=
  if num_lanes = 0 then none
  else
    let lane_width := Int.fdiv frame_width num_lanes
    if x_coord < lane_width then some "A"
    else if x_coord < lane_width * 2 then some "B"
    else if x_coord < lane_width * 3 then some "C"
    else some "D"

/-- Position of a lane identifier in the fixed order A < B < C < D, for
stating monotonicity of the classifier. -/
def laneRank : Option String → Nat
  | some "A" => 0
  | some "B" => 1
  | some "C" => 2
  | some "D" => 3
  | _ => 4

/-! ### The four-lane instantiation of the timing functions -/

lemma maxVal_four (a b c d : Nat) :
    maxVal [("laneA", a), ("laneB", b), ("laneC", c), ("laneD", d)] =
      some (((a.max b).max c).max d) := by
  simp [maxVal, List.foldl]

/-- Python's `max(dict, key=dict.get)` keeps the first key attaining the
maximum, so over the insertion order laneA, laneB, laneC, laneD the four
mutually exclusive outcomes are exactly these. -/
lemma argmaxKey_four (a b c d : Nat) :
    (a ≥ b ∧ a ≥ c ∧ a ≥ d ∧
      argmaxKey [("laneA", a), ("laneB", b), ("laneC", c), ("laneD", d)] = some "laneA") ∨
    (b > a ∧ b ≥ c ∧ b ≥ d ∧
      argmaxKey [("laneA", a), ("laneB", b), ("laneC", c), ("laneD", d)] = some "laneB") ∨
    (c > a ∧ c > b ∧ c ≥ d ∧
      argmaxKey [("laneA", a), ("laneB", b), ("laneC", c), ("laneD", d)] = some "laneC") ∨
    (d > a ∧ d > b ∧ d > c ∧
      argmaxKey [("laneA", a), ("laneB", b), ("laneC", c), ("laneD", d)] = some "laneD") := by
  simp only [argmaxKey, List.foldl]
  split_ifs with h1 h2 h3 h4 h5 h6 h7 <;> simp_all <;> omega

/-- The step-function duration table of the spec (§4.3 step 2), on the
Green lane's own count. -/
def greenStepOk (e : LaneSignal) : Prop :=
  (e.count ≤ 5 → e.time = 15) ∧
  (5 < e.count → e.count ≤ 10 → e.time = 20) ∧
  (10 < e.count → e.count ≤ 15 → e.time = 25) ∧
  (15 < e.count → e.time = 30)

/-- The shape the claim requires of a published state: exactly one Green
lane whose duration follows the step table, all others Red with duration
15, and cycle time = green duration + 15 * (number of lanes - 1). -/
def oneGreenState (s : List (String × LaneSignal)) : Prop :=
  s.countP (fun e => e.2.signal == "Green") = 1 ∧
  (∀ e ∈ s, e.2.signal = "Green" → greenStepOk e.2) ∧
  (∀ e ∈ s, e.2.signal ≠ "Green" → e.2.signal = "Red" ∧ e.2.time = 15) ∧
  (∀ e ∈ s, e.2.signal = "Green" →
    calculate_cycle_time s = e.2.time + 15 * (s.length - 1)) ∧
  s.length = 4

lemma oneGreen_A (a b c d gt : Nat) (pG pR : Option String)
    (hgt : (a ≤ 5 → gt = 15) ∧ (5 < a → a ≤ 10 → gt = 20) ∧
           (10 < a → a ≤ 15 → gt = 25) ∧ (15 < a → gt = 30)) :
    oneGreenState [("laneA", ⟨a, "Green", gt, pG⟩), ("laneB", ⟨b, "Red", 15, pR⟩),
                   ("laneC", ⟨c, "Red", 15, pR⟩), ("laneD", ⟨d, "Red", 15, pR⟩)] := by
  refine ⟨by simp [List.countP_cons], ?_, ?_, ?_, rfl⟩
  · intro e he hg
    simp only [List.mem_cons, List.not_mem_nil, or_false] at he
    rcases he with rfl | rfl | rfl | rfl <;> simp_all [greenStepOk]
  · intro e he hne
    simp only [List.mem_cons, List.not_mem_nil, or_false] at he
    rcases he with rfl | rfl | rfl | rfl <;> simp_all
  · intro e he hg
    simp only [List.mem_cons, List.not_mem_nil, or_false] at he
    rcases he with rfl | rfl | rfl | rfl <;> simp_all [calculate_cycle_time] <;> omega

lemma oneGreen_B (a b c d gt : Nat) (pG pR : Option String)
    (hgt : (b ≤ 5 → gt = 15) ∧ (5 < b → b ≤ 10 → gt = 20) ∧
           (10 < b → b ≤ 15 → gt = 25) ∧ (15 < b → gt = 30)) :
    oneGreenState [("laneA", ⟨a, "Red", 15, pR⟩), ("laneB", ⟨b, "Green", gt, pG⟩),
                   ("laneC", ⟨c, "Red", 15, pR⟩), ("laneD", ⟨d, "Red", 15, pR⟩)] := by
  refine ⟨by simp [List.countP_cons], ?_, ?_, ?_, rfl⟩
  · intro e he hg
    simp only [List.mem_cons, List.not_mem_nil, or_false] at he
    rcases he with rfl | rfl | rfl | rfl <;> simp_all [greenStepOk]
  · intro e he hne
    simp only [List.mem_cons, List.not_mem_nil, or_false] at he
    rcases he with rfl | rfl | rfl | rfl <;> simp_all
  · intro e he hg
    simp only [List.mem_cons, List.not_mem_nil, or_false] at he
    rcases he with rfl | rfl | rfl | rfl <;> simp_all [calculate_cycle_time] <;> omega

lemma oneGreen_C (a b c d gt : Nat) (pG pR : Option String)
    (hgt : (c ≤ 5 → gt = 15) ∧ (5 < c → c ≤ 10 → gt = 20) ∧
           (10 < c → c ≤ 15 → gt = 25) ∧ (15 < c → gt = 30)) :
    oneGreenState [("laneA", ⟨a, "Red", 15, pR⟩), ("laneB", ⟨b, "Red", 15, pR⟩),
                   ("laneC", ⟨c, "Green", gt, pG⟩), ("laneD", ⟨d, "Red", 15, pR⟩)] := by
  refine ⟨by simp [List.countP_cons], ?_, ?_, ?_, rfl⟩
  · intro e he hg
    simp only [List.mem_cons, List.not_mem_nil, or_false] at he
    rcases he with rfl | rfl | rfl | rfl <;> simp_all [greenStepOk]
  · intro e he hne
    simp only [List.mem_cons, List.not_mem_nil, or_false] at he
    rcases he with rfl | rfl | rfl | rfl <;> simp_all
  · intro e he hg
    simp only [List.mem_cons, List.not_mem_nil, or_false] at he
    rcases he with rfl | rfl | rfl | rfl <;> simp_all [calculate_cycle_time] <;> omega

lemma oneGreen_D (a b c d gt : Nat) (pG pR : Option String)
    (hgt : (d ≤ 5 → gt = 15) ∧ (5 < d → d ≤ 10 → gt = 20) ∧
           (10 < d → d ≤ 15 → gt = 25) ∧ (15 < d → gt = 30)) :
    oneGreenState [("laneA", ⟨a, "Red", 15, pR⟩), ("laneB", ⟨b, "Red", 15, pR⟩),
                   ("laneC", ⟨c, "Red", 15, pR⟩), ("laneD", ⟨d, "Green", gt, pG⟩)] := by
  refine ⟨by simp [List.countP_cons], ?_, ?_, ?_, rfl⟩
  · intro e he hg
    simp only [List.mem_cons, List.not_mem_nil, or_false] at he
    rcases he with rfl | rfl | rfl | rfl <;> simp_all [greenStepOk]
  · intro e he hne
    simp only [List.mem_cons, List.not_mem_nil, or_false] at he
    rcases he with rfl | rfl | rfl | rfl <;> simp_all
  · intro e he hg
    simp only [List.mem_cons, List.not_mem_nil, or_false] at he
    rcases he with rfl | rfl | rfl | rfl <;> simp_all [calculate_cycle_time] <;> omega

/-- Claim C1: for every four-lane count mapping, both
`calculate_signal_timing` (app.py) and
`SignalController.calculate_adaptive_timing` (utils.py) return a state
with exactly one Green lane whose duration follows the step function on
its count (≤5 → 15, (5,10] → 20, (10,15] → 25, >15 → 30), all other
lanes Red with duration 15, and the cycle time of that state equals the
green duration plus 15 * (lane count - 1). -/
theorem computeTiming_one_green (a b c d : Nat) :
    (∃ s, calculate_signal_timing (fourLanes a b c d) = some s ∧ oneGreenState s) ∧
    (∃ s, calculate_adaptive_timing (fourLanes a b c d) = some s ∧ oneGreenState s) := by
  rcases argmaxKey_four a b c d with ⟨h1, h2, h3, hm⟩ | ⟨h1, h2, h3, hm⟩ |
    ⟨h1, h2, h3, hm⟩ | ⟨h1, h2, h3, hm⟩
  · have hmax : ((a.max b).max c).max d = a := by
      simp only [Nat.max_def] ; split_ifs <;> omega
    constructor
    · refine ⟨_, ?_, oneGreen_A a b c d
        (if a > 15 then 30 else if a > 10 then 25 else if a > 5 then 20 else 15)
        none none (by split_ifs <;> omega)⟩
      simp [calculate_signal_timing, fourLanes, maxVal_four, hm, hmax]
    · refine ⟨_, ?_, oneGreen_A a b c d
        (if a > 15 then 30 else if a > 10 then 25 else if a > 5 then 20 else 15)
        (some "High") (some "Low") (by split_ifs <;> omega)⟩
      simp [calculate_adaptive_timing, fourLanes, hm, List.lookup]
  · have hmax : ((a.max b).max c).max d = b := by
      simp only [Nat.max_def] ; split_ifs <;> omega
    constructor
    · refine ⟨_, ?_, oneGreen_B a b c d
        (if b > 15 then 30 else if b > 10 then 25 else if b > 5 then 20 else 15)
        none none (by split_ifs <;> omega)⟩
      simp [calculate_signal_timing, fourLanes, maxVal_four, hm, hmax]
    · refine ⟨_, ?_, oneGreen_B a b c d
        (if b > 15 then 30 else if b > 10 then 25 else if b > 5 then 20 else 15)
        (some "High") (some "Low") (by split_ifs <;> omega)⟩
      simp [calculate_adaptive_timing, fourLanes, hm, List.lookup]
  · have hmax : ((a.max b).max c).max d = c := by
      simp only [Nat.max_def] ; split_ifs <;> omega
    constructor
    · refine ⟨_, ?_, oneGreen_C a b c d
        (if c > 15 then 30 else if c > 10 then 25 else if c > 5 then 20 else 15)
        none none (by split_ifs <;> omega)⟩
      simp [calculate_signal_timing, fourLanes, maxVal_four, hm, hmax]
    · refine ⟨_, ?_, oneGreen_C a b c d
        (if c > 15 then 30 else if c > 10 then 25 else if c > 5 then 20 else 15)
        (some "High") (some "Low") (by split_ifs <;> omega)⟩
      simp [calculate_adaptive_timing, fourLanes, hm, List.lookup]
  · have hmax : ((a.max b).max c).max d = d := by
      simp only [Nat.max_def] ; split_ifs <;> omega
    constructor
    · refine ⟨_, ?_, oneGreen_D a b c d
        (if d > 15 then 30 else if d > 10 then 25 else if d > 5 then 20 else 15)
        none none (by split_ifs <;> omega)⟩
      simp [calculate_signal_timing, fourLanes, maxVal_four, hm, hmax]
    · refine ⟨_, ?_, oneGreen_D a b c d
        (if d > 15 then 30 else if d > 10 then 25 else if d > 5 then 20 else 15)
        (some "High") (some "Low") (by split_ifs <;> omega)⟩
      simp [calculate_adaptive_timing, fourLanes, hm, List.lookup]

/-- Spec-side selection rule (§4.3 step 1), stated from the spec's words
for comparison with the code's selection: the lane with the maximum
count, ties broken by ascending LaneId (lowest id wins). -/
def specPriorityLane (a b c d : Nat) : String :=
  let m := ((a.max b).max c).max d
  if a = m then "laneA"
  else if b = m then "laneB"
  else if c = m then "laneC"
  else "laneD"

lemma specPriorityLane_A (a b c d : Nat) (h1 : a ≥ b) (h2 : a ≥ c) (h3 : a ≥ d) :
    specPriorityLane a b c d = "laneA" ∧ ((a.max b).max c).max d = a := by
  have hmax : ((a.max b).max c).max d = a := by
    simp only [Nat.max_def] ; split_ifs <;> omega
  exact ⟨by simp [specPriorityLane, hmax], hmax⟩

lemma specPriorityLane_B (a b c d : Nat) (h1 : b > a) (h2 : b ≥ c) (h3 : b ≥ d) :
    specPriorityLane a b c d = "laneB" ∧ ((a.max b).max c).max d = b := by
  have hmax : ((a.max b).max c).max d = b := by
    simp only [Nat.max_def] ; split_ifs <;> omega
  refine ⟨?_, hmax⟩
  simp only [specPriorityLane, hmax]
  rw [if_neg (by omega)] ; simp

lemma specPriorityLane_C (a b c d : Nat) (h1 : c > a) (h2 : c > b) (h3 : c ≥ d) :
    specPriorityLane a b c d = "laneC" ∧ ((a.max b).max c).max d = c := by
  have hmax : ((a.max b).max c).max d = c := by
    simp only [Nat.max_def] ; split_ifs <;> omega
  refine ⟨?_, hmax⟩
  simp only [specPriorityLane, hmax]
  rw [if_neg (by omega), if_neg (by omega)] ; simp

lemma specPriorityLane_D (a b c d : Nat) (h1 : d > a) (h2 : d > b) (h3 : d > c) :
    specPriorityLane a b c d = "laneD" ∧ ((a.max b).max c).max d = d := by
  have hmax : ((a.max b).max c).max d = d := by
    simp only [Nat.max_def] ; split_ifs <;> omega
  refine ⟨?_, hmax⟩
  simp only [specPriorityLane, hmax]
  rw [if_neg (by omega), if_neg (by omega), if_neg (by omega)]

/-- Claim C2: the lane selected Green by `calculate_signal_timing` and
by `SignalController.calculate_adaptive_timing` is the lane with the
maximum count, and when several lanes share the maximum (including the
all-zero mapping) the selected lane is the smallest in the order
laneA < laneB < laneC < laneD; in particular counts A:10, B:10, C:5,
D:5 yield Green lane A under both functions. -/
theorem green_lane_is_max_tiebreak_ascending (a b c d : Nat) :
    (∃ s, calculate_signal_timing (fourLanes a b c d) = some s ∧
      ∀ e ∈ s, e.2.signal = "Green" →
        e.1 = specPriorityLane a b c d ∧ e.2.count = ((a.max b).max c).max d) ∧
    (∃ s, calculate_adaptive_timing (fourLanes a b c d) = some s ∧
      ∀ e ∈ s, e.2.signal = "Green" →
        e.1 = specPriorityLane a b c d ∧ e.2.count = ((a.max b).max c).max d) ∧
    calculate_signal_timing (fourLanes 10 10 5 5) =
      some [("laneA", { count := 10, signal := "Green", time := 20 }),
            ("laneB", { count := 10, signal := "Red", time := 15 }),
            ("laneC", { count := 5, signal := "Red", time := 15 }),
            ("laneD", { count := 5, signal := "Red", time := 15 })] ∧
    calculate_adaptive_timing (fourLanes 10 10 5 5) =
      some [("laneA", { count := 10, signal := "Green", time := 20,
                        priority := some "High" }),
            ("laneB", { count := 10, signal := "Red", time := 15,
                        priority := some "Low" }),
            ("laneC", { count := 5, signal := "Red", time := 15,
                        priority := some "Low" }),
            ("laneD", { count := 5, signal := "Red", time := 15,
                        priority := some "Low" })] := by
  have hgen : (∃ s, calculate_signal_timing (fourLanes a b c d) = some s ∧
      ∀ e ∈ s, e.2.signal = "Green" →
        e.1 = specPriorityLane a b c d ∧ e.2.count = ((a.max b).max c).max d) ∧
    (∃ s, calculate_adaptive_timing (fourLanes a b c d) = some s ∧
      ∀ e ∈ s, e.2.signal = "Green" →
        e.1 = specPriorityLane a b c d ∧ e.2.count = ((a.max b).max c).max d) := by
    rcases argmaxKey_four a b c d with ⟨h1, h2, h3, hm⟩ | ⟨h1, h2, h3, hm⟩ |
      ⟨h1, h2, h3, hm⟩ | ⟨h1, h2, h3, hm⟩
    · obtain ⟨hsp, hmax⟩ := specPriorityLane_A a b c d h1 h2 h3
      constructor
      · refine ⟨[("laneA", ⟨a, "Green", if a > 15 then 30 else if a > 10 then 25 else if a > 5 then 20 else 15, none⟩),
            ("laneB", ⟨b, "Red", 15, none⟩),
            ("laneC", ⟨c, "Red", 15, none⟩),
            ("laneD", ⟨d, "Red", 15, none⟩)],
          by simp [calculate_signal_timing, fourLanes, maxVal_four, hm, hmax], ?_⟩
        intro e he hg
        simp only [List.mem_cons, List.not_mem_nil, or_false] at he
        rcases he with rfl | rfl | rfl | rfl
        · exact ⟨hsp.symm, hmax.symm⟩
        · simp at hg
        · simp at hg
        · simp at hg
      · refine ⟨[("laneA", ⟨a, "Green", if a > 15 then 30 else if a > 10 then 25 else if a > 5 then 20 else 15, some "High"⟩),
            ("laneB", ⟨b, "Red", 15, some "Low"⟩),
            ("laneC", ⟨c, "Red", 15, some "Low"⟩),
            ("laneD", ⟨d, "Red", 15, some "Low"⟩)],
          by simp [calculate_adaptive_timing, fourLanes, hm, List.lookup], ?_⟩
        intro e he hg
        simp only [List.mem_cons, List.not_mem_nil, or_false] at he
        rcases he with rfl | rfl | rfl | rfl
        · exact ⟨hsp.symm, hmax.symm⟩
        · simp at hg
        · simp at hg
        · simp at hg
    · obtain ⟨hsp, hmax⟩ := specPriorityLane_B a b c d h1 h2 h3
      constructor
      · refine ⟨[("laneA", ⟨a, "Red", 15, none⟩),
            ("laneB", ⟨b, "Green", if b > 15 then 30 else if b > 10 then 25 else if b > 5 then 20 else 15, none⟩),
            ("laneC", ⟨c, "Red", 15, none⟩),
            ("laneD", ⟨d, "Red", 15, none⟩)],
          by simp [calculate_signal_timing, fourLanes, maxVal_four, hm, hmax], ?_⟩
        intro e he hg
        simp only [List.mem_cons, List.not_mem_nil, or_false] at he
        rcases he with rfl | rfl | rfl | rfl
        · simp at hg
        · exact ⟨hsp.symm, hmax.symm⟩
        · simp at hg
        · simp at hg
      · refine ⟨[("laneA", ⟨a, "Red", 15, some "Low"⟩),
            ("laneB", ⟨b, "Green", if b > 15 then 30 else if b > 10 then 25 else if b > 5 then 20 else 15, some "High"⟩),
            ("laneC", ⟨c, "Red", 15, some "Low"⟩),
            ("laneD", ⟨d, "Red", 15, some "Low"⟩)],
          by simp [calculate_adaptive_timing, fourLanes, hm, List.lookup], ?_⟩
        intro e he hg
        simp only [List.mem_cons, List.not_mem_nil, or_false] at he
        rcases he with rfl | rfl | rfl | rfl
        · simp at hg
        · exact ⟨hsp.symm, hmax.symm⟩
        · simp at hg
        · simp at hg
    · obtain ⟨hsp, hmax⟩ := specPriorityLane_C a b c d h1 h2 h3
      constructor
      · refine ⟨[("laneA", ⟨a, "Red", 15, none⟩),
            ("laneB", ⟨b, "Red", 15, none⟩),
            ("laneC", ⟨c, "Green", if c > 15 then 30 else if c > 10 then 25 else if c > 5 then 20 else 15, none⟩),
            ("laneD", ⟨d, "Red", 15, none⟩)],
          by simp [calculate_signal_timing, fourLanes, maxVal_four, hm, hmax], ?_⟩
        intro e he hg
        simp only [List.mem_cons, List.not_mem_nil, or_false] at he
        rcases he with rfl | rfl | rfl | rfl
        · simp at hg
        · simp at hg
        · exact ⟨hsp.symm, hmax.symm⟩
        · simp at hg
      · refine ⟨[("laneA", ⟨a, "Red", 15, some "Low"⟩),
            ("laneB", ⟨b, "Red", 15, some "Low"⟩),
            ("laneC", ⟨c, "Green", if c > 15 then 30 else if c > 10 then 25 else if c > 5 then 20 else 15, some "High"⟩),
            ("laneD", ⟨d, "Red", 15, some "Low"⟩)],
          by simp [calculate_adaptive_timing, fourLanes, hm, List.lookup], ?_⟩
        intro e he hg
        simp only [List.mem_cons, List.not_mem_nil, or_false] at he
        rcases he with rfl | rfl | rfl | rfl
        · simp at hg
        · simp at hg
        · exact ⟨hsp.symm, hmax.symm⟩
        · simp at hg
    · obtain ⟨hsp, hmax⟩ := specPriorityLane_D a b c d h1 h2 h3
      constructor
      · refine ⟨[("laneA", ⟨a, "Red", 15, none⟩),
            ("laneB", ⟨b, "Red", 15, none⟩),
            ("laneC", ⟨c, "Red", 15, none⟩),
            ("laneD", ⟨d, "Green", if d > 15 then 30 else if d > 10 then 25 else if d > 5 then 20 else 15, none⟩)],
          by simp [calculate_signal_timing, fourLanes, maxVal_four, hm, hmax], ?_⟩
        intro e he hg
        simp only [List.mem_cons, List.not_mem_nil, or_false] at he
        rcases he with rfl | rfl | rfl | rfl
        · simp at hg
        · simp at hg
        · simp at hg
        · exact ⟨hsp.symm, hmax.symm⟩
      · refine ⟨[("laneA", ⟨a, "Red", 15, some "Low"⟩),
            ("laneB", ⟨b, "Red", 15, some "Low"⟩),
            ("laneC", ⟨c, "Red", 15, some "Low"⟩),
            ("laneD", ⟨d, "Green", if d > 15 then 30 else if d > 10 then 25 else if d > 5 then 20 else 15, some "High"⟩)],
          by simp [calculate_adaptive_timing, fourLanes, hm, List.lookup], ?_⟩
        intro e he hg
        simp only [List.mem_cons, List.not_mem_nil, or_false] at he
        rcases he with rfl | rfl | rfl | rfl
        · simp at hg
        · simp at hg
        · simp at hg
        · exact ⟨hsp.symm, hmax.symm⟩
  exact ⟨hgen.1, hgen.2, by decide, by decide⟩

/-! ### Validation behavior of the timing functions (C4) -/

/-- Claim C4 counterexample: a counts mapping whose key set is
{"laneX"}, different from the configured lane set, still yields a normal
SignalState — the code performs no key-set validation. -/
theorem computeTiming_accepts_foreign_keys :
    calculate_signal_timing [("laneX", 5)] =
      some [("laneX", { count := 5, signal := "Green", time := 15 })] ∧
    calculate_adaptive_timing [("laneX", 5)] =
      some [("laneX", { count := 5, signal := "Green", time := 15,
                        priority := some "High" })] := by
  decide

/-- The first-max key picked by `argmaxKey`'s fold is the seed or one of
the folded elements, so it is always a key of the dict. -/
lemma foldl_pick_mem (e : String × Nat) (l : List (String × Nat)) :
    l.foldl (fun best x => if x.2 > best.2 then x else best) e = e ∨
    l.foldl (fun best x => if x.2 > best.2 then x else best) e ∈ l := by
  induction l generalizing e with
  | nil => left ; rfl
  | cons x xs ih =>
    simp only [List.foldl_cons]
    rcases ih (if x.2 > e.2 then x else e) with h | h
    · rw [h]
      split_ifs
      · right ; exact List.mem_cons_self _ _
      · left ; rfl
    · right ; exact List.mem_cons_of_mem _ h

lemma lookup_isSome_of_mem (k : String) (l : List (String × Nat)) (h : k ∈ l.map Prod.fst) :
    ∃ v, l.lookup k = some v := by
  induction l with
  | nil => simp at h
  | cons e es ih =>
    cases hbe : (k == e.1) with
    | true => exact ⟨e.2, by simp [List.lookup, hbe]⟩
    | false =>
      simp only [List.lookup, hbe]
      apply ih
      simp only [List.map_cons, List.mem_cons] at h
      rcases h with h | h
      · rw [h] at hbe ; simp at hbe
      · exact h

/-- Claim C4 (amended): `calculate_signal_timing` and
`calculate_adaptive_timing` fail only when the counts mapping is empty
(Python `max` raises `ValueError` there); for every non-empty mapping,
whatever its key set, both return a normal SignalState. -/
theorem computeTiming_fails_only_on_empty :
    calculate_signal_timing [] = none ∧
    calculate_adaptive_timing [] = none ∧
    (∀ e l, ∃ s, calculate_signal_timing (e :: l) = some s) ∧
    (∀ e l, ∃ s, calculate_adaptive_timing (e :: l) = some s) := by
  refine ⟨rfl, rfl, fun e l => ⟨_, rfl⟩, ?_⟩
  intro e l
  have hmem : (l.foldl (fun best x => if x.2 > best.2 then x else best) e).1 ∈
      (e :: l).map Prod.fst := by
    rcases foldl_pick_mem e l with h | h
    · rw [h] ; exact List.mem_cons_self _ _
    · exact List.mem_cons_of_mem _ (List.mem_map_of_mem _ h)
  obtain ⟨v, hv⟩ := lookup_isSome_of_mem _ (e :: l) hmem
  have hs : (calculate_adaptive_timing (e :: l)).isSome := by
    simp only [calculate_adaptive_timing, argmaxKey]
    rw [hv]
    rfl
  exact Option.isSome_iff_exists.mp hs

/-! ### The lane classifier (C5, C6) -/

/-- Claim C5 counterexample: at frameWidth = 1 (which is > 0) the lane
width is 1 // 4 = 0, and the boundary coordinate x = laneWidth = 0 maps
to lane D, not lane B. -/
theorem boundary_not_B_for_small_frame :
    Int.fdiv 1 4 = 0 ∧ determine_lane (Int.fdiv 1 4) 1 4 = some "D" := by
  decide

/-- Claim C5 (amended): for every frameWidth > 0 the classifier is total
over all x ≥ 0 and monotone non-decreasing in x (in the order
A < B < C < D); the boundary coordinate x = laneWidth maps to lane B
whenever frameWidth ≥ 4, while for 0 < frameWidth < 4 the integer lane
width is 0 and every x ≥ 0 maps to lane D. -/
theorem determine_lane_total_monotone (fw : Int) (hfw : 0 < fw) :
    (∀ x : Int, 0 ≤ x → ∃ l, determine_lane x fw 4 = some l) ∧
    (∀ x y : Int, x ≤ y →
      laneRank (determine_lane x fw 4) ≤ laneRank (determine_lane y fw 4)) ∧
    (4 ≤ fw → determine_lane (Int.fdiv fw 4) fw 4 = some "B") ∧
    (fw < 4 → ∀ x : Int, 0 ≤ x → determine_lane x fw 4 = some "D") := by
  have hlw : Int.fdiv fw 4 = fw / 4 := Int.fdiv_eq_ediv _ (by omega)
  refine ⟨?_, ?_, ?_, ?_⟩
  · intro x hx
    simp only [determine_lane, if_neg (by omega : ¬ (4 : Int) = 0)]
    split_ifs <;> exact ⟨_, rfl⟩
  · intro x y hxy
    simp only [determine_lane, hlw, if_neg (by omega : ¬ (4 : Int) = 0)]
    split_ifs <;> simp [laneRank] <;> omega
  · intro h4
    simp only [determine_lane, hlw, if_neg (by omega : ¬ (4 : Int) = 0)]
    split_ifs <;> first | rfl | omega
  · intro h4 x hx
    simp only [determine_lane, hlw, if_neg (by omega : ¬ (4 : Int) = 0)]
    split_ifs <;> first | rfl | omega

/-- Concrete instance of `determine_lane_total_monotone` at
frameWidth = 8 and frameWidth = 2. -/
theorem determine_lane_total_monotone_witness :
    (∃ l, determine_lane 3 8 4 = some l) ∧
    laneRank (determine_lane 3 8 4) ≤ laneRank (determine_lane 7 8 4) ∧
    determine_lane (Int.fdiv 8 4) 8 4 = some "B" ∧
    determine_lane 1 2 4 = some "D" := by
  have h8 := determine_lane_total_monotone 8 (by decide)
  have h2 := determine_lane_total_monotone 2 (by decide)
  exact ⟨h8.1 3 (by decide), h8.2.1 3 7 (by decide), h8.2.2.1 (by decide),
    h2.2.2.2 (by decide) 1 (by decide)⟩

/-- Claim C6 counterexample: frameWidth = 0 violates frameWidth > 0 yet
the classifier returns a lane identifier instead of failing. -/
theorem determine_lane_accepts_zero_width :
    determine_lane 0 0 4 = some "D" := by decide

/-- Claim C6 (amended): the classifier performs no configuration
validation: with the default laneCount 4 and any frameWidth ≤ 0 it
returns lane D for every x ≥ 0 instead of failing; it fails only when
laneCount = 0 (Python raises `ZeroDivisionError`) — every non-zero
laneCount, negative values included, returns a lane identifier. -/
theorem determine_lane_no_validation :
    (∀ x fw : Int, 0 ≤ x → fw ≤ 0 → determine_lane x fw 4 = some "D") ∧
    (∀ x fw : Int, determine_lane x fw 0 = none) ∧
    (∀ x fw n : Int, n ≠ 0 → ∃ l, determine_lane x fw n = some l) := by
  refine ⟨?_, ?_, ?_⟩
  · intro x fw hx hfw
    have hlw : Int.fdiv fw 4 = fw / 4 := Int.fdiv_eq_ediv _ (by omega)
    simp only [determine_lane, hlw, if_neg (by omega : ¬ (4 : Int) = 0)]
    split_ifs <;> first | rfl | omega
  · intro x fw
    simp [determine_lane]
  · intro x fw n hn
    simp only [determine_lane, if_neg hn]
    split_ifs <;> exact ⟨_, rfl⟩

/-- Concrete instance of `determine_lane_no_validation`. -/
theorem determine_lane_no_validation_witness :
    determine_lane 3 (-7) 4 = some "D" ∧ determine_lane 3 12 0 = none ∧
    (∃ l, determine_lane 3 12 (-4) = some l) :=
  ⟨determine_lane_no_validation.1 3 (-7) (by decide) (by decide),
   determine_lane_no_validation.2.1 3 12,
   determine_lane_no_validation.2.2 3 12 (-4) (by decide)⟩

/-! ### The simulate endpoint (C9, C10) -/

/-- Python `dict.update` on string-keyed dicts: existing keys are
overwritten in place, keys not yet present are appended in the update's
order. -/
def dictUpdate (d u : List (String × LaneSignal)) : List (String × LaneSignal) :=
  (d.map fun e => match u.lookup e.1 with
    | some w => (e.1, w)
    | none => e) ++
  u.filter (fun x => (d.lookup x.1).isNone)

/-- `simulate_traffic` of `app.py` lines 368-400: if the key
`'lane' + lane` exists, overwrite that lane's count, rebuild the counts
dict from the current state, recompute the signals and merge them into
the state with `dict.update`; otherwise return an error leaving the
state untouched. -/
def simulate_traffic (current_video_data : List (String × LaneSignal))
    (lane : String) (count : Nat) : Bool × List (String × LaneSignal) :=
  let key := "lane" ++ lane
  if (current_video_data.lookup key).isSome then
    let updated := current_video_data.map fun e =>
      if e.1 = key then (e.1, { e.2 with count := count }) else e
    let vehicle_counts := updated.map fun e => (e.1, e.2.count)
    match calculate_signal_timing vehicle_counts with
    | some signals => (true, dictUpdate updated signals)
    | none => (false, updated)
  else (false, current_video_data)

/-- `get_traffic_data` of `app.py` lines 342-349: returns the current
published state unchanged. -/
def get_traffic_data (current_video_data : List (String × LaneSignal)) :
    List (String × LaneSignal) := current_video_data

lemma dictUpdate_four (u1 u2 u3 u4 w1 w2 w3 w4 : LaneSignal) :
    dictUpdate [("laneA", u1), ("laneB", u2), ("laneC", u3), ("laneD", u4)]
               [("laneA", w1), ("laneB", w2), ("laneC", w3), ("laneD", w4)] =
      [("laneA", w1), ("laneB", w2), ("laneC", w3), ("laneD", w4)] := by
  rfl

lemma simulate_B_unfold (va vb vc0 vd : LaneSignal) :
    simulate_traffic [("laneA", va), ("laneB", vb), ("laneC", vc0), ("laneD", vd)] "B" 18 =
      match calculate_signal_timing
          [("laneA", va.count), ("laneB", 18), ("laneC", vc0.count), ("laneD", vd.count)] with
      | some signals =>
          (true, dictUpdate [("laneA", va), ("laneB", { vb with count := 18 }),
                             ("laneC", vc0), ("laneD", vd)] signals)
      | none => (false, [("laneA", va), ("laneB", { vb with count := 18 }),
                         ("laneC", vc0), ("laneD", vd)]) := by
  rfl

lemma lane_key_inj (s t : String) (h : "lane" ++ s = "lane" ++ t) : s = t := by
  have hd := congrArg String.data h
  simp only [String.data_append] at hd
  exact String.ext (List.append_cancel_left hd)

/-- Claim C9: for every current signal state over lanes A, B, C, D,
`simulate_traffic` with lane B and count 18 succeeds and the state it
publishes (what `get_traffic_data` then returns) has lane B's count
equal to 18 and is exactly `calculate_signal_timing` applied to the full
updated count mapping. -/
theorem simulate_roundtrip (va vb vc0 vd : LaneSignal) :
    ∃ s, simulate_traffic [("laneA", va), ("laneB", vb), ("laneC", vc0), ("laneD", vd)]
          "B" 18 = (true, s) ∧
      calculate_signal_timing (fourLanes va.count 18 vc0.count vd.count) = some s ∧
      ((get_traffic_data s).lookup "laneB").map LaneSignal.count = some 18 := by
  rcases argmaxKey_four va.count 18 vc0.count vd.count with ⟨h1, h2, h3, hm⟩ |
    ⟨h1, h2, h3, hm⟩ | ⟨h1, h2, h3, hm⟩ | ⟨h1, h2, h3, hm⟩
  · have hmax : ((va.count.max 18).max vc0.count).max vd.count = va.count := by
      simp only [Nat.max_def] ; split_ifs <;> omega
    have hsig : calculate_signal_timing
        [("laneA", va.count), ("laneB", 18), ("laneC", vc0.count), ("laneD", vd.count)] =
        some [("laneA", ⟨va.count, "Green", if va.count > 15 then 30 else
                 if va.count > 10 then 25 else if va.count > 5 then 20 else 15, none⟩),
              ("laneB", ⟨18, "Red", 15, none⟩),
              ("laneC", ⟨vc0.count, "Red", 15, none⟩),
              ("laneD", ⟨vd.count, "Red", 15, none⟩)] := by
      simp [calculate_signal_timing, maxVal_four, hm, hmax]
    refine ⟨_, ?_, by simpa [fourLanes] using hsig, by simp [get_traffic_data, List.lookup]⟩
    rw [simulate_B_unfold, hsig] ; rfl
  · have hmax : ((va.count.max 18).max vc0.count).max vd.count = 18 := by
      simp only [Nat.max_def] ; split_ifs <;> omega
    have hsig : calculate_signal_timing
        [("laneA", va.count), ("laneB", 18), ("laneC", vc0.count), ("laneD", vd.count)] =
        some [("laneA", ⟨va.count, "Red", 15, none⟩),
              ("laneB", ⟨18, "Green", 30, none⟩),
              ("laneC", ⟨vc0.count, "Red", 15, none⟩),
              ("laneD", ⟨vd.count, "Red", 15, none⟩)] := by
      simp [calculate_signal_timing, maxVal_four, hm, hmax]
    refine ⟨_, ?_, by simpa [fourLanes] using hsig, by simp [get_traffic_data, List.lookup]⟩
    rw [simulate_B_unfold, hsig] ; rfl
  · have hmax : ((va.count.max 18).max vc0.count).max vd.count = vc0.count := by
      simp only [Nat.max_def] ; split_ifs <;> omega
    have hsig : calculate_signal_timing
        [("laneA", va.count), ("laneB", 18), ("laneC", vc0.count), ("laneD", vd.count)] =
        some [("laneA", ⟨va.count, "Red", 15, none⟩),
              ("laneB", ⟨18, "Red", 15, none⟩),
              ("laneC", ⟨vc0.count, "Green", if vc0.count > 15 then 30 else
                 if vc0.count > 10 then 25 else if vc0.count > 5 then 20 else 15, none⟩),
              ("laneD", ⟨vd.count, "Red", 15, none⟩)] := by
      simp [calculate_signal_timing, maxVal_four, hm, hmax]
    refine ⟨_, ?_, by simpa [fourLanes] using hsig, by simp [get_traffic_data, List.lookup]⟩
    rw [simulate_B_unfold, hsig] ; rfl
  · have hmax : ((va.count.max 18).max vc0.count).max vd.count = vd.count := by
      simp only [Nat.max_def] ; split_ifs <;> omega
    have hsig : calculate_signal_timing
        [("laneA", va.count), ("laneB", 18), ("laneC", vc0.count), ("laneD", vd.count)] =
        some [("laneA", ⟨va.count, "Red", 15, none⟩),
              ("laneB", ⟨18, "Red", 15, none⟩),
              ("laneC", ⟨vc0.count, "Red", 15, none⟩),
              ("laneD", ⟨vd.count, "Green", if vd.count > 15 then 30 else
                 if vd.count > 10 then 25 else if vd.count > 5 then 20 else 15, none⟩)] := by
      simp [calculate_signal_timing, maxVal_four, hm, hmax]
    refine ⟨_, ?_, by simpa [fourLanes] using hsig, by simp [get_traffic_data, List.lookup]⟩
    rw [simulate_B_unfold, hsig] ; rfl

/-- Claim C10: for every lane identifier outside the configured set
{A, B, C, D} and every count, `simulate_traffic` returns a failure and
leaves the current state completely unchanged — no count is written and
no retiming occurs. -/
theorem simulate_invalid_lane (lane : String)
    (hl : lane ∉ (["A", "B", "C", "D"] : List String))
    (va vb vc0 vd : LaneSignal) (count : Nat) :
    simulate_traffic [("laneA", va), ("laneB", vb), ("laneC", vc0), ("laneD", vd)]
        lane count =
      (false, [("laneA", va), ("laneB", vb), ("laneC", vc0), ("laneD", vd)]) := by
  simp only [List.mem_cons, List.not_mem_nil, or_false, not_or] at hl
  obtain ⟨hA, hB, hC, hD⟩ := hl
  have hkA : ("lane" ++ lane == "laneA") = false :=
    beq_eq_false_iff_ne.mpr fun h => hA (lane_key_inj _ _ h)
  have hkB : ("lane" ++ lane == "laneB") = false :=
    beq_eq_false_iff_ne.mpr fun h => hB (lane_key_inj _ _ h)
  have hkC : ("lane" ++ lane == "laneC") = false :=
    beq_eq_false_iff_ne.mpr fun h => hC (lane_key_inj _ _ h)
  have hkD : ("lane" ++ lane == "laneD") = false :=
    beq_eq_false_iff_ne.mpr fun h => hD (lane_key_inj _ _ h)
  simp [simulate_traffic, List.lookup, hkA, hkB, hkC, hkD]

/-- Concrete instance of `simulate_invalid_lane`: lane "X" with count 7
against the canonical initial state. -/
theorem simulate_invalid_lane_witness :
    simulate_traffic
        [("laneA", ⟨0, "Red", 15, none⟩), ("laneB", ⟨0, "Red", 15, none⟩),
         ("laneC", ⟨0, "Red", 15, none⟩), ("laneD", ⟨0, "Red", 15, none⟩)] "X" 7 =
      (false, [("laneA", ⟨0, "Red", 15, none⟩), ("laneB", ⟨0, "Red", 15, none⟩),
               ("laneC", ⟨0, "Red", 15, none⟩), ("laneD", ⟨0, "Red", 15, none⟩)]) :=
  simulate_invalid_lane "X" (by decide) _ _ _ _ 7

/-! ### The video-processing endpoint (C3, C7, C8) -/

/-- The dict returned by `process_video_yolo` / `process_video_dummy`
(`app.py` lines 170-183, 207-220): a success flag and, when successful,
the computed signals (the other keys play no role in the endpoint's
state handling). -/
structure ProcResult where
  success : Bool
  signals : List (String × LaneSignal)
deriving Repr, DecidableEq

/-- The module-level mutable state the `/process_video` endpoint touches
(`app.py` lines 36-45), plus whether the transient uploaded video file
currently exists on disk. -/
structure ServerState where
  current_video_data : List (String × LaneSignal)
  status : String
  progress : Nat
  uploadedFileExists : Bool
deriving Repr, DecidableEq

/-- The `/process_video` endpoint, `app.py` lines 277-340. `hasFile`,
`filenameEmpty` and `extAllowed` abstract the three upload checks;
`proc` abstracts the outcome of the processing region after the file was
saved: `.ok r` is a result dict returned by
`process_video_yolo`/`process_video_dummy` (both catch their own
exceptions), `.error e` is an exception propagating to the handler's
`except` block — e.g. the upload stream failing partway through
`file.save` after the destination file was created. The first component
of the result is the `success` flag of the JSON response. -/
def process_video (st : ServerState) (hasFile : Bool) (filenameEmpty : Bool)
    (extAllowed : Bool) (proc : Except String ProcResult) : Bool × ServerState :=
  if hasFile = false then (false, st)
  else if filenameEmpty = true then (false, st)
  else if extAllowed = true then
    let st1 := { st with uploadedFileExists := true, status := "processing",
                         progress := 0 }
    match proc with
    | .error _ => (false, { st1 with status := "error" })
    | .ok r =>
      let st2 := if r.success then { st1 with current_video_data := r.signals }
                 else st1
      let st3 := { st2 with
        status := "completed"
        progress := 100
        uploadedFileExists := false }
      (r.success, st3)
  else (false, st)

/-- The canonical initial server state (`app.py` lines 36-45). -/
def initialState : ServerState :=
  { current_video_data :=
      [("laneA", ⟨0, "Red", 15, none⟩), ("laneB", ⟨0, "Red", 15, none⟩),
       ("laneC", ⟨0, "Red", 15, none⟩), ("laneD", ⟨0, "Red", 15, none⟩)],
    status := "idle", progress := 0, uploadedFileExists := false }

/-- Claim C3 counterexample: on an unsuccessful processing result the
endpoint ends with status "completed", not "error" — the `except` block
that sets "error" only fires on raised exceptions, which the processing
functions catch themselves. -/
theorem failed_result_ends_completed_not_error :
    (process_video initialState true false true (.ok ⟨false, []⟩)).2.status
        = "completed" ∧
    (process_video initialState true false true (.ok ⟨false, []⟩)).2.status
        ≠ "error" := by
  decide

/-- Claim C3 (amended): when the processing function returns an
unsuccessful result (e.g. the frame source cannot be opened), no
SignalState is published — `current_video_data` is left exactly as it
was — and the response carries success = false, but the job status is
set to "completed", not "error". -/
theorem failed_result_keeps_state (st : ServerState) (r : ProcResult)
    (hr : r.success = false) :
    (process_video st true false true (.ok r)).1 = false ∧
    (process_video st true false true (.ok r)).2.current_video_data
        = st.current_video_data ∧
    (process_video st true false true (.ok r)).2.status = "completed" := by
  simp [process_video, hr]

/-- Concrete instance of `failed_result_keeps_state`. -/
theorem failed_result_keeps_state_witness :
    (process_video initialState true false true (.ok ⟨false, []⟩)).1 = false ∧
    (process_video initialState true false true (.ok ⟨false, []⟩)).2.current_video_data
        = initialState.current_video_data ∧
    (process_video initialState true false true (.ok ⟨false, []⟩)).2.status
        = "completed" :=
  failed_result_keeps_state initialState ⟨false, []⟩ rfl

/-- Claim C7 counterexample: a mid-request exception after the file was
saved reaches the `except` block, which does not delete the uploaded
file — the cleanup at `app.py` lines 322-324 is inside the `try` body,
not in a `finally`. -/
theorem exception_retains_uploaded_file :
    (process_video initialState true false true
        (.error "upload stream interrupted")).2.uploadedFileExists = true := by
  decide

/-- Claim C7 (amended): the uploaded video file is deleted on every
normal-return path of the processing section — successful completion,
unsuccessful result (detector/source failure) and fallback mode all
reach the cleanup — but on a mid-request exception after the save the
`except` block returns without deleting it, so the file is retained. -/
theorem uploaded_file_cleanup_normal_paths_only :
    (∀ (st : ServerState) (r : ProcResult),
      (process_video st true false true (.ok r)).2.uploadedFileExists = false) ∧
    (∀ (st : ServerState) (e : String),
      (process_video st true false true (.error e)).2.uploadedFileExists = true) := by
  constructor <;> intro st x <;> simp [process_video]

/-- Claim C8 counterexample: a submission arriving while the status is
"processing" is not rejected: the endpoint runs the job, returns
success, overwrites the published signal state and sets status
"completed". -/
theorem second_submission_not_rejected :
    (process_video { current_video_data := initialState.current_video_data,
                     status := "processing", progress := 37,
                     uploadedFileExists := false }
        true false true
        (.ok ⟨true, [("laneA", ⟨9, "Green", 20, none⟩)]⟩)).1 = true ∧
    (process_video { current_video_data := initialState.current_video_data,
                     status := "processing", progress := 37,
                     uploadedFileExists := false }
        true false true
        (.ok ⟨true, [("laneA", ⟨9, "Green", 20, none⟩)]⟩)).2.status
        = "completed" ∧
    (process_video { current_video_data := initialState.current_video_data,
                     status := "processing", progress := 37,
                     uploadedFileExists := false }
        true false true
        (.ok ⟨true, [("laneA", ⟨9, "Green", 20, none⟩)]⟩)).2.current_video_data
        = [("laneA", ⟨9, "Green", 20, none⟩)] := by
  decide

/-- Claim C8 (amended): the endpoint performs no mutual-exclusion check:
a valid submission arriving while another job's status is "processing"
is accepted and processed exactly as if the server were idle — the
response carries the new job's success flag, the status ends
"completed", and a successful result overwrites the published state. -/
theorem no_mutual_exclusion (st : ServerState) (hst : st.status = "processing")
    (r : ProcResult) :
    (process_video st true false true (.ok r)).1 = r.success ∧
    (process_video st true false true (.ok r)).2.status = "completed" ∧
    (r.success = true →
      (process_video st true false true (.ok r)).2.current_video_data = r.signals) := by
  refine ⟨by simp [process_video], by simp [process_video], ?_⟩
  intro h
  simp [process_video, h]

/-- Concrete instance of `no_mutual_exclusion`. -/
theorem no_mutual_exclusion_witness :
    (process_video { current_video_data := [], status := "processing",
                     progress := 0, uploadedFileExists := false }
        true false true (.ok ⟨true, []⟩)).1 = true ∧
    (process_video { current_video_data := [], status := "processing",
                     progress := 0, uploadedFileExists := false }
        true false true (.ok ⟨true, []⟩)).2.status = "completed" ∧
    ((true : Bool) = true →
      (process_video { current_video_data := [], status := "processing",
                       progress := 0, uploadedFileExists := false }
          true false true (.ok ⟨true, []⟩)).2.current_video_data = []) :=
  no_mutual_exclusion
    { current_video_data := [], status := "processing",
      progress := 0, uploadedFileExists := false } rfl ⟨true, []⟩
